import Mathlib

/-
Shallow embedding of `cmk/base/plugins/agent_based/smart.py` (Checkmk SMART
disk-health plugin): the telemetry parser, the attribute registry, the
discovery function and the check function, together with theorems about them.

Python dictionaries are modelled as insertion-ordered association lists with
the update-in-place / append-if-new semantics of CPython dicts.  Python
exceptions are modelled with `Except String`.  The floating point rate handed
back by the external `get_rate` collaborator is modelled as a rational number
passed in as an argument.
-/

namespace Smart

/-- Python dict with string keys: first-match lookup over an association list. -/
def lookupStr {β : Type} : List (String × β) → String → Option β
  | [], _ => none
  | (k, v) :: rest, key => if k = key then some v else lookupStr rest key

/-- Python dict assignment `d[key] = v`: replace the value in place if the key
is present, append the pair otherwise. -/
def setKey {β : Type} : List (String × β) → String → β → List (String × β)
  | [], key, v => [(key, v)]
  | (k, w) :: rest, key, v =>
      if k = key then (key, v) :: rest else (k, w) :: setKey rest key v

/-- One device's attribute map (`Disk = MutableMapping[str, int]`). -/
abbrev Disk := List (String × Int)

/-- The parsed section (`Section = Mapping[str, Mapping[str, int]]`). -/
abbrev Disks := List (String × Disk)

/-- Strip leading and trailing whitespace from a character list (the effect of
Python `str.strip()` with no argument). -/
def pyStripChars (cs : List Char) : List Char :=
  ((cs.dropWhile Char.isWhitespace).reverse.dropWhile Char.isWhitespace).reverse

/-- Strip leading and trailing whitespace (Python `s.strip()`). -/
def pyStrip (s : String) : String := String.mk (pyStripChars s.toList)

/-- Character-list splitter: cut at every separator, keeping empty pieces, as
Python `str.split(sep)` does.  `acc` holds the current piece reversed. -/
def splitChars (p : Char → Bool) : List Char → List Char → List String
  | [], acc => [String.mk acc.reverse]
  | c :: cs, acc =>
      if p c then String.mk acc.reverse :: splitChars p cs []
      else splitChars p cs (c :: acc)

/-- Python `s.split(c)` for a one-character separator: empty pieces kept. -/
def splitOnChar (c : Char) (s : String) : List String :=
  splitChars (fun x => x = c) s.toList []

/-- Python `s.replace(c, r)` for one-character pattern and replacement. -/
def mapChar (c r : Char) (s : String) : String :=
  String.mk (s.toList.map (fun x => if x = c then r else x))

/-- Python `s.replace(c, "")` for a one-character pattern: drop every
occurrence. -/
def removeChar (c : Char) (s : String) : String :=
  String.mk (s.toList.filter (fun x => x ≠ c))

/-- Python `s.lower()` (ASCII case folding suffices for attribute names). -/
def pyLower (s : String) : String := String.mk (s.toList.map Char.toLower)

/-- Numeric value of a run of decimal digit characters. -/
def digitsVal (cs : List Char) : Nat :=
  cs.foldl (fun n c => 10 * n + (c.toNat - 48)) 0

/-- A nonempty all-digit run parses to its value, anything else fails. -/
def parseDigits? (cs : List Char) : Option Nat :=
  if cs ≠ [] ∧ cs.all Char.isDigit then some (digitsVal cs) else none

/-- Model of Python `int(s)`: surrounding whitespace is ignored, an optional
sign is followed by a nonempty run of decimal digits; any other string raises
`ValueError`, modelled as `none`.  (Digit-grouping underscores and non-ASCII
digits accepted by CPython are not modelled.) -/
def pyInt? (s : String) : Option Int :=
  match pyStripChars s.toList with
  | '-' :: cs => (parseDigits? cs).map (fun n => -(n : Int))
  | '+' :: cs => (parseDigits? cs).map (fun n => (n : Int))
  | cs => (parseDigits? cs).map (fun n => (n : Int))

/-- Value of one hexadecimal digit character, if it is one. -/
def hexDigitVal? (c : Char) : Option Nat :=
  if c.isDigit then some (c.toNat - 48)
  else if 'a' ≤ c ∧ c ≤ 'f' then some (c.toNat - 87)
  else if 'A' ≤ c ∧ c ≤ 'F' then some (c.toNat - 55)
  else none

/-- A nonempty run of hex digits parses to its value, anything else fails. -/
def parseHexDigits? (cs : List Char) : Option Nat :=
  if cs = [] then none
  else cs.foldl
    (fun acc c =>
      match acc, hexDigitVal? c with
      | some n, some d => some (16 * n + d)
      | _, _ => none)
    (some 0)

/-- Strip an optional leading `0x` / `0X` marker, as Python `int(s, 16)` allows. -/
def stripHexMarker : List Char → List Char
  | '0' :: 'x' :: rest => rest
  | '0' :: 'X' :: rest => rest
  | cs => cs

/-- Model of Python `int(s, 16)`: optional sign, optional `0x` prefix, then a
nonempty run of hexadecimal digits; anything else raises, modelled as `none`. -/
def pyIntBase16? (s : String) : Option Int :=
  match pyStripChars s.toList with
  | '-' :: cs => (parseHexDigits? (stripHexMarker cs)).map (fun n => -(n : Int))
  | '+' :: cs => (parseHexDigits? (stripHexMarker cs)).map (fun n => (n : Int))
  | cs => (parseHexDigits? (stripHexMarker cs)).map (fun n => (n : Int))

/-- Model of Python `s.split()`: split on whitespace, dropping empty pieces. -/
def pySplitWs (s : String) : List String :=
  (splitChars Char.isWhitespace s.toList []).filter (fun t => t ≠ "")

/-- Model of Python `needle in haystack` on strings (substring containment). -/
def strContains (haystack needle : String) : Bool :=
  decide (needle.toList <:+: haystack.toList)

/-- The attribute registry (`class DiskAttribute(DiskAttributeItem, Enum)`),
constructors in the declaration order of the Python enum. -/
inductive DiskAttribute
  | REALLOCATED_SECTORS
  | POWER_ON_HOURS
  | SPIN_RETRIES
  | POWER_CYCLES
  | END_TO_END_ERRORS
  | UNCORRECTABLE_ERRORS
  | COMMAND_TIMEOUT_COUNTER
  | TEMPERATURE
  | REALLOCATED_EVENTS
  | PENDING_SECTORS
  | UDMA_CRC_ERRORS
  | CRC_ERRORS
  | CRITICAL_WARNING
  | MEDIA_AND_DATA_INTEGRITY_ERRORS
  | AVAILABLE_SPARE
  | PERCENTAGE_USED
  | ERROR_INFORMATION_LOG_ENTRIES
  | DATA_UNITS_READ
  | DATA_UNITS_WRITTEN
deriving DecidableEq

/-- Canonical attribute name (the `name` field of each enum member). -/
def DiskAttribute.name : DiskAttribute → String
  | .REALLOCATED_SECTORS => "Reallocated_Sectors"
  | .POWER_ON_HOURS => "Power_On_Hours"
  | .SPIN_RETRIES => "Spin_Retries"
  | .POWER_CYCLES => "Power_Cycles"
  | .END_TO_END_ERRORS => "End-to-End_Errors"
  | .UNCORRECTABLE_ERRORS => "Uncorrectable_Errors"
  | .COMMAND_TIMEOUT_COUNTER => "Command_Timeout_Counter"
  | .TEMPERATURE => "Temperature"
  | .REALLOCATED_EVENTS => "Reallocated_Events"
  | .PENDING_SECTORS => "Pending_Sectors"
  | .UDMA_CRC_ERRORS => "UDMA_CRC_Errors"
  | .CRC_ERRORS => "CRC_Errors"
  | .CRITICAL_WARNING => "Critical_Warning"
  | .MEDIA_AND_DATA_INTEGRITY_ERRORS => "Media_and_Data_Integrity_Errors"
  | .AVAILABLE_SPARE => "Available_Spare"
  | .PERCENTAGE_USED => "Percentage_Used"
  | .ERROR_INFORMATION_LOG_ENTRIES => "Error_Information_Log_Entries"
  | .DATA_UNITS_READ => "Data_Units_Read"
  | .DATA_UNITS_WRITTEN => "Data_Units_Written"

/-- The `capture_on_discovery` flag of each enum member. -/
def DiskAttribute.capture_on_discovery : DiskAttribute → Bool
  | .REALLOCATED_SECTORS => true
  | .POWER_ON_HOURS => false
  | .SPIN_RETRIES => true
  | .POWER_CYCLES => false
  | .END_TO_END_ERRORS => true
  | .UNCORRECTABLE_ERRORS => true
  | .COMMAND_TIMEOUT_COUNTER => true
  | .TEMPERATURE => false
  | .REALLOCATED_EVENTS => true
  | .PENDING_SECTORS => true
  | .UDMA_CRC_ERRORS => true
  | .CRC_ERRORS => true
  | .CRITICAL_WARNING => true
  | .MEDIA_AND_DATA_INTEGRITY_ERRORS => true
  | .AVAILABLE_SPARE => false
  | .PERCENTAGE_USED => false
  | .ERROR_INFORMATION_LOG_ENTRIES => false
  | .DATA_UNITS_READ => false
  | .DATA_UNITS_WRITTEN => false

/-- Modelled from the spec: `render.timespan` of the agent-based API is not in
src/; the spec only requires a total duration renderer over integers. -/
def render_timespan (seconds : Int) : String := toString seconds ++ " s"

/-- Modelled from the spec: `render.percent` of the agent-based API is not in
src/; the spec only requires a total percentage renderer over integers. -/
def render_percent (v : Int) : String := toString v ++ "%"

/-- Modelled from the spec: `render.bytes` of the agent-based API is not in
src/; the spec only requires a total byte-count renderer over integers. -/
def render_bytes (v : Int) : String := toString v ++ " B"

/-- The `renderer` field of each enum member (`str`, or one of the agent-API
render helpers). -/
def DiskAttribute.renderer : DiskAttribute → Int → String
  | .POWER_ON_HOURS => fun h => render_timespan (h * 3600)
  | .AVAILABLE_SPARE => render_percent
  | .PERCENTAGE_USED => render_percent
  | .DATA_UNITS_READ => render_bytes
  | .DATA_UNITS_WRITTEN => render_bytes
  | _ => fun v => toString v

/-- Iteration order of `for f in DiskAttribute`, i.e. enum declaration order. -/
def DiskAttribute.all : List DiskAttribute :=
  [.REALLOCATED_SECTORS, .POWER_ON_HOURS, .SPIN_RETRIES, .POWER_CYCLES,
   .END_TO_END_ERRORS, .UNCORRECTABLE_ERRORS, .COMMAND_TIMEOUT_COUNTER,
   .TEMPERATURE, .REALLOCATED_EVENTS, .PENDING_SECTORS, .UDMA_CRC_ERRORS,
   .CRC_ERRORS, .CRITICAL_WARNING, .MEDIA_AND_DATA_INTEGRITY_ERRORS,
   .AVAILABLE_SPARE, .PERCENTAGE_USED, .ERROR_INFORMATION_LOG_ENTRIES,
   .DATA_UNITS_READ, .DATA_UNITS_WRITTEN]

/-- `MAX_COMMAND_TIMEOUTS_PER_HOUR = 100`. -/
def MAX_COMMAND_TIMEOUTS_PER_HOUR : Int := 100

/-- `CRC_ERRORS_ID: Final = 199`. -/
def CRC_ERRORS_ID : Int := 199

/-- `ATA_ID_TO_DISK_ATTRIBUTE`: the fixed code-to-descriptor mapping. -/
def ATA_ID_TO_DISK_ATTRIBUTE (i : Int) : Option DiskAttribute :=
  if i = 5 then some .REALLOCATED_SECTORS
  else if i = 9 then some .POWER_ON_HOURS
  else if i = 10 then some .SPIN_RETRIES
  else if i = 12 then some .POWER_CYCLES
  else if i = 184 then some .END_TO_END_ERRORS
  else if i = 187 then some .UNCORRECTABLE_ERRORS
  else if i = 188 then some .COMMAND_TIMEOUT_COUNTER
  else if i = 194 then some .TEMPERATURE
  else if i = 196 then some .REALLOCATED_EVENTS
  else if i = 197 then some .PENDING_SECTORS
  else if i = CRC_ERRORS_ID then some .CRC_ERRORS
  else none

/-- `_set_int_or_zero`: store `int(value)`, or `0` when the conversion fails. -/
def set_int_or_zero (disk : Disk) (key : String) (value : String) : Disk :=
  match pyInt? value with
  | some n => setKey disk key n
  | none => setKey disk key 0

/-- One iteration of the loop in `_parse_ata_lines`.  The positional
destructuring follows the Python `for (...) in ata_lines` header; the leading
`setKey` mirrors `ata_disks.setdefault(disk_path, {})`, which creates the
device entry even when the line is subsequently skipped.  The unguarded
`int(ID)` can raise, hence the `Except`. -/
def parse_ata_step (disks : Disks) (line : List String) : Except String Disks :=
  match line with
  | disk_path :: _disk_type :: _disk_name :: ID :: attribute_name :: _flag :: value ::
      _worst :: threshold :: _type :: _updated :: _when_failed :: raw_value :: _raw_value_info =>
    let disk := (lookupStr disks disk_path).getD []
    let disks := setKey disks disk_path disk
    if attribute_name = "Unknown_Attribute" then .ok disks
    else match pyInt? ID with
    | none => .error "ValueError: invalid literal for int: ID"
    | some i =>
      if i = CRC_ERRORS_ID ∧ attribute_name = "UDMA_CRC_Error_Count" then
        .ok (setKey disks disk_path
          (set_int_or_zero disk DiskAttribute.UDMA_CRC_ERRORS.name raw_value))
      else match ATA_ID_TO_DISK_ATTRIBUTE i with
      | none =>
        if (lookupStr disk attribute_name).isSome then
          -- don't override already set attributes
          .ok disks
        else .ok (setKey disks disk_path (set_int_or_zero disk attribute_name raw_value))
      | some lookup_attribute =>
        let disk := set_int_or_zero disk lookup_attribute.name raw_value
        let disk :=
          if lookup_attribute = DiskAttribute.REALLOCATED_EVENTS then
            -- the two normalized assignments sit in one `try`: a failing
            -- `int(value)` leaves both unset, a failing `int(threshold)`
            -- leaves only the first one set
            match pyInt? value with
            | none => disk
            | some nv =>
              let disk := setKey disk "_normalized_value_Reallocated_Events" nv
              match pyInt? threshold with
              | none => disk
              | some nt => setKey disk "_normalized_threshold_Reallocated_Events" nt
          else disk
        .ok (setKey disks disk_path disk)
  | _ => .ok disks

/-- Body of `_parse_ata_lines`: fold the step over all qualifying lines. -/
def parse_ata_lines (lines : List (List String)) : Except String Disks :=
  lines.foldlM parse_ata_step []

/-- One iteration of the loop in `_parse_nvme_lines`.  The state carries the
`disk` loop variable as the path of the device currently being filled; a field
line arriving before any device line hits Python's unbound local `disk`.  When
a field value is malformed and no device line was seen yet, the source raises
whichever of the two errors its evaluation order reaches first; this model
reports the unbound local in that (doubly erroneous) situation. -/
def parse_nvme_step (st : Disks × Option String) (line : List String) :
    Except String (Disks × Option String) :=
  match line with
  | [] => .ok st
  | l0 :: _ =>
    if strContains l0 "/dev" then
      .ok (setKey st.1 l0 ((lookupStr st.1 l0).getD []), some l0)
    else
      match splitOnChar ':' (String.intercalate " " line) with
      | [f, v] =>
        let field := pyStrip f
        let value0 := pyStrip v
        let key := mapChar ' ' '_' field
        let value := removeChar ',' (removeChar '.' (removeChar '%' value0))
        match st.2 with
        | none => .error "UnboundLocalError: disk"
        | some cur =>
          let disk := (lookupStr st.1 cur).getD []
          if field = "Temperature" then
            match pySplitWs value with
            | [] => .error "IndexError: list index out of range"
            | t :: _ => .ok (setKey st.1 cur (set_int_or_zero disk key t), st.2)
          else if field = "Critical Warning" then
            match pyIntBase16? value with
            | none => .error "ValueError: invalid literal for int with base 16"
            | some n => .ok (setKey st.1 cur (setKey disk key n), st.2)
          else if field = "Data Units Read" then
            match pySplitWs value with
            | [] => .error "IndexError: list index out of range"
            | t :: _ =>
              match pyInt? t with
              | none => .error "ValueError: invalid literal for int"
              | some n => .ok (setKey st.1 cur (setKey disk key (n * 512000)), st.2)
          else if field = "Data Units Written" then
            match pySplitWs value with
            | [] => .error "IndexError: list index out of range"
            | t :: _ =>
              match pyInt? t with
              | none => .error "ValueError: invalid literal for int"
              | some n => .ok (setKey st.1 cur (setKey disk key (n * 512000)), st.2)
          else .ok (setKey st.1 cur (set_int_or_zero disk key value), st.2)
      | _ => .error "ValueError: not enough values to unpack"

/-- Body of `_parse_nvme_lines`: fold the step over all qualifying lines. -/
def parse_nvme_lines (lines : List (List String)) : Except String Disks :=
  (lines.foldlM parse_nvme_step ([], none)).map Prod.fst

/-- `parse_raw_values`: dispatch lines by field count to the two sub-parsers
and merge their outputs as `{**ata, **nvme}` (dict merge, NVMe wins on
colliding device keys). -/
def parse_raw_values (string_table : List (List String)) : Except String Disks := do
  let ata ← parse_ata_lines (string_table.filter (fun l => 13 ≤ l.length))
  let nvme ← parse_nvme_lines
    (string_table.filter (fun l => 3 ≤ l.length ∧ l.length ≤ 6))
  .ok (nvme.foldl (fun acc kv => setKey acc kv.1 kv.2) ata)

/-- Body of the dict comprehension in `discover_smart_stats`: the subset of
registry attributes that are capture-worthy and present in the reading, in
enum order, each with its current value. -/
def captured (disk : Disk) : Disk :=
  DiskAttribute.all.filterMap (fun f =>
    if f.capture_on_discovery then (lookupStr disk f.name).map (fun v => (f.name, v))
    else none)

/-- `discover_smart_stats`: one service per device whose captured subset is
nonempty, carrying that subset as discovery parameters. -/
def discover_smart_stats (sec : Disks) : List (String × Disk) :=
  sec.filterMap (fun p =>
    let c := captured p.2
    if c = [] then none else some (p.1, c))

/-- Monitoring state of one emitted `Result` (`State.OK` / `State.CRIT`). -/
inductive CheckState
  | OK
  | CRIT
deriving DecidableEq

/-- One item yielded by the check generator: a `Result(state, summary)` or a
`Metric(name, value)`. -/
inductive Output
  | result (state : CheckState) (summary : String)
  | metric (name : String) (value : Int)
deriving DecidableEq

/-- `_display_attribute_name`: three hard-coded translations, otherwise split
the canonical name on the first underscore and de-underscore/lower the rest. -/
def display_attribute_name (attr : DiskAttribute) : String :=
  match attr with
  | .CRC_ERRORS => "CRC errors"
  | .UDMA_CRC_ERRORS => "UDMA CRC errors"
  | .POWER_ON_HOURS => "Powered on"
  | _ =>
    match splitOnChar '_' attr.name with
    | [only_one] => only_one
    | first :: rest =>
        first ++ " " ++ mapChar '_' ' ' (pyLower (String.intercalate "_" rest))
    | [] => attr.name

/-- The two `yield` statements closing the loop body of `check_smart_stats`:
the summary gets the comma-joined hints in parentheses when any exist. -/
def emit (state : CheckState) (hints : List String) (infotext : String)
    (attr : DiskAttribute) (value : Int) : List Output :=
  [Output.result state
     (if hints ≠ [] then infotext ++ " (" ++ String.intercalate ", " hints ++ ")"
      else infotext),
   Output.metric attr.name value]

/-- Baseline-comparison part of the loop body of `check_smart_stats`, reached
once `ref_value` is known to be present: default comparison and hints, then the
Reallocated_Events normalized cross-check and the Command_Timeout_Counter rate
override, exactly as layered in the source. -/
def eval_with_ref (disk : Disk) (rate : ℚ) (attr : DiskAttribute)
    (value ref_value : Int) (infotext : String) : List Output :=
  let state :=
    if attr = DiskAttribute.AVAILABLE_SPARE then
      if value < ref_value then CheckState.CRIT else CheckState.OK
    else
      if value > ref_value then CheckState.CRIT else CheckState.OK
  let hints : List String :=
    if state = CheckState.OK then []
    else ["during discovery: " ++ toString ref_value ++ " (!!)"]
  if attr = DiskAttribute.REALLOCATED_EVENTS then
    match lookupStr disk "_normalized_value_Reallocated_Events",
          lookupStr disk "_normalized_threshold_Reallocated_Events" with
    | some norm_value, some norm_threshold =>
        let hints := hints ++
          ["normalized value: " ++ toString norm_value ++
            (if norm_value ≤ norm_threshold then " (!!)" else "")]
        let state := if norm_value ≤ norm_threshold then CheckState.CRIT else state
        emit state hints infotext attr value
    | _, _ =>
        -- `except KeyError`: fall back to an unconditional OK line
        [Output.result CheckState.OK infotext, Output.metric attr.name value]
  else if attr = DiskAttribute.COMMAND_TIMEOUT_COUNTER then
    let state :=
      if rate < (MAX_COMMAND_TIMEOUTS_PER_HOUR : ℚ) / (60 * 60) then CheckState.OK
      else CheckState.CRIT
    let hints : List String :=
      if state = CheckState.OK then []
      else ["counter increased more than " ++ toString MAX_COMMAND_TIMEOUTS_PER_HOUR ++
        " counts / h (!!). Value during discovery was: " ++ toString ref_value]
    emit state hints infotext attr value
  else emit state hints infotext attr value

/-- One iteration of the attribute loop in `check_smart_stats`.
The external `get_rate` collaborator is modelled by the `rate` argument (the
per-second rate it returns for the `cmd_timeout` key).  The unguarded
`disk["Available_Spare_Threshold"]` lookup can raise, hence the `Except`. -/
def check_attribute (disk params : Disk) (rate : ℚ) (attr : DiskAttribute) :
    Except String (List Output) :=
  if attr = DiskAttribute.TEMPERATURE then .ok []
  else match lookupStr disk attr.name with
  | none => .ok []
  | some value =>
    let infotext := display_attribute_name attr ++ ": " ++ attr.renderer value
    if attr = DiskAttribute.AVAILABLE_SPARE then
      match lookupStr disk "Available_Spare_Threshold" with
      | none => .error "KeyError: Available_Spare_Threshold"
      | some ref_value => .ok (eval_with_ref disk rate attr value ref_value infotext)
    else
      match lookupStr params attr.name with
      | none => .ok [Output.result CheckState.OK infotext,
                     Output.metric attr.name value]
      | some ref_value => .ok (eval_with_ref disk rate attr value ref_value infotext)

/-- The attribute loop of `check_smart_stats` as a generator: outputs are
concatenated in enum order and an exception aborts the whole evaluation. -/
def check_all (disk params : Disk) (rate : ℚ) :
    List DiskAttribute → Except String (List Output)
  | [] => .ok []
  | a :: rest =>
      match check_attribute disk params rate a with
      | .error e => .error e
      | .ok out =>
          match check_all disk params rate rest with
          | .error e => .error e
          | .ok tail => .ok (out ++ tail)

/-- `check_smart_stats(item, params, section)` with the externally supplied
rate: no output when the item is absent from the section. -/
def check_smart_stats (item : String) (params : Disk) (sec : Disks) (rate : ℚ) :
    Except String (List Output) :=
  match lookupStr sec item with
  | none => .ok []
  | some disk => check_all disk params rate DiskAttribute.all

/-- The fifteen-line tabular record of the worked example (the doctest of
`parse_raw_values`, identical to the agent data quoted at the top of the
source file). -/
def exampleTable : List (List String) :=
  [["/dev/sda", "ATA", "WDC_SSC-D0128SC-", "1", "Raw_Read_Error_Rate",
    "0x000b", "100", "100", "050", "Pre-fail", "Always", "-", "16777215"],
   ["/dev/sda", "ATA", "WDC_SSC-D0128SC-", "3", "Spin_Up_Time",
    "0x0007", "100", "100", "050", "Pre-fail", "Always", "-", "0"],
   ["/dev/sda", "ATA", "WDC_SSC-D0128SC-", "5", "Reallocated_Sector_Ct",
    "0x0013", "100", "100", "050", "Pre-fail", "Always", "-", "0"],
   ["/dev/sda", "ATA", "WDC_SSC-D0128SC-", "7", "Seek_Error_Rate",
    "0x000b", "100", "100", "050", "Pre-fail", "Always", "-", "0"],
   ["/dev/sda", "ATA", "WDC_SSC-D0128SC-", "9", "Power_On_Hours",
    "0x0012", "100", "100", "000", "Old_age", "Always", "-", "1408"],
   ["/dev/sda", "ATA", "WDC_SSC-D0128SC-", "10", "Spin_Retry_Count",
    "0x0013", "100", "100", "050", "Pre-fail", "Always", "-", "0"],
   ["/dev/sda", "ATA", "WDC_SSC-D0128SC-", "12", "Power_Cycle_Count",
    "0x0012", "100", "100", "000", "Old_age", "Always", "-", "523"],
   ["/dev/sda", "ATA", "WDC_SSC-D0128SC-", "168", "Unknown_Attribute",
    "0x0012", "100", "100", "000", "Old_age", "Always", "-", "1"],
   ["/dev/sda", "ATA", "WDC_SSC-D0128SC-", "175", "Program_Fail_Count_Chip",
    "0x0003", "100", "100", "010", "Pre-fail", "Always", "-", "0"],
   ["/dev/sda", "ATA", "WDC_SSC-D0128SC-", "192", "Power-Off_Retract_Count",
    "0x0012", "100", "100", "000", "Old_age", "Always", "-", "0"],
   ["/dev/sda", "ATA", "WDC_SSC-D0128SC-", "194", "Temperature_Celsius",
    "0x0022", "040", "100", "000", "Old_age", "Always", "-", "40",
    "(Lifetime", "Min/Max", "30/60)"],
   ["/dev/sda", "ATA", "WDC_SSC-D0128SC-", "197", "Current_Pending_Sector",
    "0x0012", "100", "100", "000", "Old_age", "Always", "-", "0"],
   ["/dev/sda", "ATA", "WDC_SSC-D0128SC-", "240", "Head_Flying_Hours",
    "0x0013", "100", "100", "050", "Pre-fail", "Always", "-", "0"],
   ["/dev/sda", "ATA", "WDC_SSC-D0128SC-", "170", "Unknown_Attribute",
    "0x0003", "100", "100", "010", "Pre-fail", "Always", "-", "1769478"],
   ["/dev/sda", "ATA", "WDC_SSC-D0128SC-", "173", "Unknown_Attribute",
    "0x0012", "100", "100", "000", "Old_age", "Always", "-", "4217788040605"]]

/-- A tabular line in the positional shape `_parse_ata_lines` destructures. -/
def ataLine (p dt dn ID nm fl va wo th ty up wf raw : String)
    (rest : List String) : List String :=
  p :: dt :: dn :: ID :: nm :: fl :: va :: wo :: th :: ty :: up :: wf :: raw :: rest

/-- Looking a key up right after setting it yields the new value. -/
theorem lookupStr_setKey_self {β : Type} (l : List (String × β)) (k : String) (v : β) :
    lookupStr (setKey l k v) k = some v := by
  induction l with
  | nil => simp [setKey, lookupStr]
  | cons p rest ih =>
      obtain ⟨k', w⟩ := p
      by_cases h : k' = k <;> simp [setKey, lookupStr, h, ih]

/-- Setting one key leaves lookups of other keys unchanged. -/
theorem lookupStr_setKey_ne {β : Type} (l : List (String × β)) (k k' : String) (v : β)
    (h : k ≠ k') : lookupStr (setKey l k v) k' = lookupStr l k' := by
  induction l with
  | nil => simp [setKey, lookupStr, h]
  | cons p rest ih =>
      obtain ⟨k'', w⟩ := p
      by_cases h2 : k'' = k
      · subst h2; simp [setKey, lookupStr, h]
      · simp [setKey, h2, lookupStr, ih]

/-- Writing back the value a key already holds leaves the dict unchanged. -/
theorem setKey_of_lookup_eq {β : Type} (l : List (String × β)) (k : String) (v : β)
    (h : lookupStr l k = some v) : setKey l k v = l := by
  induction l with
  | nil => simp [lookupStr] at h
  | cons p rest ih =>
      obtain ⟨k', w⟩ := p
      by_cases h2 : k' = k
      · subst h2
        simp [lookupStr] at h
        simp [setKey, h]
      · simp [lookupStr, h2] at h
        simp [setKey, h2, ih h]

/-- Every registry member occurs in the iteration list. -/
theorem mem_all (a : DiskAttribute) : a ∈ DiskAttribute.all := by
  cases a <;> decide

/-- With duplicate-free keys, membership determines the lookup result. -/
theorem lookupStr_of_mem_of_nodup {β : Type} (l : List (String × β))
    (h : (l.map Prod.fst).Nodup) (k : String) (v : β)
    (hm : (k, v) ∈ l) : lookupStr l k = some v := by
  induction l with
  | nil => cases hm
  | cons p rest ih =>
      simp only [List.map_cons, List.nodup_cons] at h
      rcases List.mem_cons.mp hm with h1 | h1
      · rw [← h1]; simp [lookupStr]
      · have hk : p.1 ≠ k := by
          intro he
          refine h.1 ?_
          rw [he]
          exact List.mem_map_of_mem Prod.fst h1
        obtain ⟨k', w⟩ := p
        simp only [lookupStr]
        rw [if_neg hk]
        exact ih h.2 h1

/-- With duplicate-free keys, two entries with the same key carry the same
value. -/
theorem value_unique_of_nodup {β : Type} (l : List (String × β))
    (h : (l.map Prod.fst).Nodup) (k : String) (a b : β)
    (ha : (k, a) ∈ l) (hb : (k, b) ∈ l) : a = b := by
  have h1 := lookupStr_of_mem_of_nodup l h k a ha
  have h2 := lookupStr_of_mem_of_nodup l h k b hb
  rw [h1] at h2
  exact Option.some.inj h2

/-- Characterisation of the captured subset: exactly the capture-worthy
registry attributes present in the reading, with their current values. -/
theorem mem_captured (disk : Disk) (a : String) (v : Int) :
    (a, v) ∈ captured disk ↔
      ∃ f : DiskAttribute, f.capture_on_discovery = true ∧ a = f.name ∧
        lookupStr disk f.name = some v := by
  unfold captured
  rw [List.mem_filterMap]
  constructor
  · rintro ⟨f, -, hf⟩
    by_cases hc : f.capture_on_discovery = true
    · rw [if_pos hc] at hf
      obtain ⟨w, hw, heq⟩ := Option.map_eq_some'.mp hf
      obtain ⟨he1, he2⟩ := Prod.mk.injEq .. ▸ heq
      exact ⟨f, hc, he1.symm, he2 ▸ hw⟩
    · rw [if_neg hc] at hf
      cases hf
  · rintro ⟨f, hc, rfl, hv⟩
    exact ⟨f, mem_all f, by rw [if_pos hc, hv]; rfl⟩

/-- Characterisation of membership in the discovery output. -/
theorem mem_discover (sec : Disks) (dn : String) (c : Disk) :
    (dn, c) ∈ discover_smart_stats sec ↔
      ∃ d, (dn, d) ∈ sec ∧ captured d ≠ [] ∧ c = captured d := by
  unfold discover_smart_stats
  rw [List.mem_filterMap]
  constructor
  · rintro ⟨⟨n, d⟩, hmem, hf⟩
    dsimp only at hf
    by_cases hc : captured d = []
    · rw [if_pos hc] at hf; cases hf
    · rw [if_neg hc] at hf
      obtain ⟨he1, he2⟩ := Prod.mk.injEq .. ▸ Option.some.inj hf
      exact ⟨d, he1 ▸ hmem, hc, he2.symm⟩
  · rintro ⟨d, hmem, hc, rfl⟩
    exact ⟨(dn, d), hmem, by simp [hc]⟩

/-- Every attribute other than the spare-capacity one is evaluated without
raising. -/
theorem check_attribute_isOk (disk params : Disk) (rate : ℚ) (a : DiskAttribute)
    (h : a ≠ .AVAILABLE_SPARE) :
    ∃ out, check_attribute disk params rate a = .ok out := by
  unfold check_attribute
  by_cases ht : a = .TEMPERATURE
  · rw [if_pos ht]; exact ⟨_, rfl⟩
  · rw [if_neg ht]
    cases hl : lookupStr disk a.name with
    | none => exact ⟨_, rfl⟩
    | some value =>
      dsimp only
      rw [if_neg h]
      cases hp : lookupStr params a.name with
      | none => exact ⟨_, rfl⟩
      | some ref_value => exact ⟨_, rfl⟩

/-- C3: parsing the fifteen-line worked-example record for `/dev/sda` yields
exactly the one-device mapping with the twelve known attributes and their
integer raw values; the three `Unknown_Attribute` lines are excluded. -/
theorem worked_example_round_trip :
    parse_raw_values exampleTable =
      .ok [("/dev/sda",
        [("Raw_Read_Error_Rate", 16777215), ("Spin_Up_Time", 0),
         ("Reallocated_Sectors", 0), ("Seek_Error_Rate", 0),
         ("Power_On_Hours", 1408), ("Spin_Retries", 0), ("Power_Cycles", 523),
         ("Program_Fail_Count_Chip", 0), ("Power-Off_Retract_Count", 0),
         ("Temperature", 40), ("Pending_Sectors", 0),
         ("Head_Flying_Hours", 0)])] := rfl

/-- C1: evaluation of the failing input.  The reading has raw
Reallocated_Events 5 against baseline 0 but a healthy normalized pair
(value 100 above threshold 50); the check still reports CRIT, because the
state set by the raw comparison is never reset, contradicting the claim (and
the source's own comment) that the normalized comparison alone decides. -/
theorem reallocated_events_raw_comparison_decides :
    check_smart_stats "/dev/sda" [("Reallocated_Events", 0)]
      [("/dev/sda",
        [("Reallocated_Events", 5), ("_normalized_value_Reallocated_Events", 100),
         ("_normalized_threshold_Reallocated_Events", 50)])] 0 =
      .ok [Output.result CheckState.CRIT
            "Reallocated events: 5 (during discovery: 0 (!!), normalized value: 100)",
           Output.metric "Reallocated_Events" 5] := rfl

/-- Display label of the rate-limited attribute, evaluated. -/
theorem display_CTC :
    display_attribute_name .COMMAND_TIMEOUT_COUNTER = "Command timeout counter" := rfl

/-- Display label of the spare-capacity attribute, evaluated. -/
theorem display_AS :
    display_attribute_name .AVAILABLE_SPARE = "Available spare" := rfl

/-- Joining a one-element list inserts no separator. -/
theorem intercalate_singleton (s x : String) : s.intercalate [x] = x := rfl

/-- Evaluation shape of the Command_Timeout_Counter attribute when it is
present and has a baseline: the verdict and hint depend only on how the rate
compares to the fixed ceiling. -/
theorem ctc_eval_if (disk params : Disk) (rate : ℚ) (v ref : Int)
    (hv : lookupStr disk "Command_Timeout_Counter" = some v)
    (hp : lookupStr params "Command_Timeout_Counter" = some ref) :
    check_attribute disk params rate .COMMAND_TIMEOUT_COUNTER =
      (if rate < (MAX_COMMAND_TIMEOUTS_PER_HOUR : ℚ) / (60 * 60) then
        .ok [Output.result CheckState.OK
               ("Command timeout counter: " ++ toString v),
             Output.metric "Command_Timeout_Counter" v]
      else
        .ok [Output.result CheckState.CRIT
               ("Command timeout counter: " ++ toString v ++ " (" ++
                 ("counter increased more than " ++ toString MAX_COMMAND_TIMEOUTS_PER_HOUR ++
                   " counts / h (!!). Value during discovery was: " ++ toString ref) ++ ")"),
             Output.metric "Command_Timeout_Counter" v]) := by
  by_cases hr : rate < (MAX_COMMAND_TIMEOUTS_PER_HOUR : ℚ) / (60 * 60) <;>
    by_cases hvr : v > ref <;>
      simp [check_attribute, eval_with_ref, emit, display_CTC, intercalate_singleton,
        DiskAttribute.name, DiskAttribute.renderer, hv, hp, hr, hvr]

/-- C2 counterexample: at a rate of exactly 100/3600 events per second — which
does not strictly exceed the ceiling — the verdict is already critical, so
critical is not restricted to rates strictly above 100/3600. -/
theorem command_timeout_critical_at_exact_ceiling :
    check_attribute [("Command_Timeout_Counter", 5)] [("Command_Timeout_Counter", 1)]
      ((100 : ℚ) / 3600) .COMMAND_TIMEOUT_COUNTER =
      .ok [Output.result CheckState.CRIT
            ("Command timeout counter: 5 (counter increased more than 100 counts / h (!!). " ++
             "Value during discovery was: 1)"),
           Output.metric "Command_Timeout_Counter" 5] := by
  rw [ctc_eval_if [("Command_Timeout_Counter", 5)] [("Command_Timeout_Counter", 1)]
    ((100 : ℚ) / 3600) 5 1 rfl rfl]
  rw [if_neg (by norm_num [MAX_COMMAND_TIMEOUTS_PER_HOUR])]
  rfl

/-- C2 (amended): for Command_Timeout_Counter with a baseline present, the
verdict ignores the baseline comparison entirely and depends only on the rate:
critical exactly when the rate is at least 100/3600 per second (greater than
or equal, not strictly greater); on critical the hint text reports the
baseline captured at discovery, not the rate. -/
theorem command_timeout_rate_policy (disk params : Disk) (rate : ℚ) (v ref : Int)
    (hv : lookupStr disk "Command_Timeout_Counter" = some v)
    (hp : lookupStr params "Command_Timeout_Counter" = some ref) :
    check_attribute disk params rate .COMMAND_TIMEOUT_COUNTER =
      (if rate < (100 : ℚ) / 3600 then
        .ok [Output.result CheckState.OK ("Command timeout counter: " ++ toString v),
             Output.metric "Command_Timeout_Counter" v]
      else
        .ok [Output.result CheckState.CRIT
               ("Command timeout counter: " ++ toString v ++ " (" ++
                 ("counter increased more than 100 counts / h (!!). Value during discovery was: "
                   ++ toString ref) ++ ")"),
             Output.metric "Command_Timeout_Counter" v]) := by
  rw [ctc_eval_if disk params rate v ref hv hp,
    (by norm_num [MAX_COMMAND_TIMEOUTS_PER_HOUR] :
      (MAX_COMMAND_TIMEOUTS_PER_HOUR : ℚ) / (60 * 60) = (100 : ℚ) / 3600)]
  by_cases hr : rate < (100 : ℚ) / 3600
  · rw [if_pos hr, if_pos hr]
  · rw [if_neg hr, if_neg hr]
    rfl

/-- Witness for C2: a rate of 50/3600 per second yields a normal verdict and a
rate of 100000/3600 per second yields a critical verdict. -/
theorem command_timeout_rate_policy_witness :
    check_attribute [("Command_Timeout_Counter", 50)] [("Command_Timeout_Counter", 0)]
      ((50 : ℚ) / 3600) .COMMAND_TIMEOUT_COUNTER =
      .ok [Output.result CheckState.OK "Command timeout counter: 50",
           Output.metric "Command_Timeout_Counter" 50] ∧
    check_attribute [("Command_Timeout_Counter", 100000)] [("Command_Timeout_Counter", 0)]
      ((100000 : ℚ) / 3600) .COMMAND_TIMEOUT_COUNTER =
      .ok [Output.result CheckState.CRIT
            ("Command timeout counter: 100000 (counter increased more than 100 counts / h " ++
             "(!!). Value during discovery was: 0)"),
           Output.metric "Command_Timeout_Counter" 100000] := by
  constructor
  · rw [command_timeout_rate_policy [("Command_Timeout_Counter", 50)]
      [("Command_Timeout_Counter", 0)] ((50 : ℚ) / 3600) 50 0 rfl rfl,
      if_pos (by norm_num)]
    rfl
  · rw [command_timeout_rate_policy [("Command_Timeout_Counter", 100000)]
      [("Command_Timeout_Counter", 0)] ((100000 : ℚ) / 3600) 100000 0 rfl rfl,
      if_neg (by norm_num)]
    rfl

/-- C4: for a reading with both Available_Spare and Available_Spare_Threshold,
the verdict is critical exactly when the current value is strictly below the
threshold taken from the same reading, and the discovery baseline is never
consulted (the output is identical for every parameter set). -/
theorem available_spare_inverted_comparison (disk params : Disk) (rate : ℚ) (v t : Int)
    (hv : lookupStr disk "Available_Spare" = some v)
    (ht : lookupStr disk "Available_Spare_Threshold" = some t) :
    check_attribute disk params rate .AVAILABLE_SPARE =
      (if v < t then
        .ok [Output.result CheckState.CRIT
               ("Available spare: " ++ render_percent v ++ " (" ++
                 ("during discovery: " ++ toString t ++ " (!!)") ++ ")"),
             Output.metric "Available_Spare" v]
      else
        .ok [Output.result CheckState.OK ("Available spare: " ++ render_percent v),
             Output.metric "Available_Spare" v]) ∧
    (∀ params', check_attribute disk params' rate .AVAILABLE_SPARE =
       check_attribute disk params rate .AVAILABLE_SPARE) := by
  constructor
  · by_cases hvt : v < t <;>
      simp [check_attribute, eval_with_ref, emit, display_AS, intercalate_singleton,
        DiskAttribute.name, DiskAttribute.renderer, hv, ht, hvt]
  · intro params'
    simp [check_attribute, DiskAttribute.name, hv, ht]

/-- Witness for C4: value 5 below threshold 10 is critical, with an empty
parameter set. -/
theorem available_spare_inverted_comparison_witness :
    check_attribute [("Available_Spare", 5), ("Available_Spare_Threshold", 10)] [] 0
      .AVAILABLE_SPARE =
      .ok [Output.result CheckState.CRIT "Available spare: 5% (during discovery: 10 (!!))",
           Output.metric "Available_Spare" 5] := by
  rw [(available_spare_inverted_comparison
    [("Available_Spare", 5), ("Available_Spare_Threshold", 10)] [] 0 5 10 rfl rfl).1]
  rfl

/-- C5 counterexample: Temperature is a registry attribute present in the
reading with no baseline and no rate/inverted override, yet the check emits
neither a verdict nor a metric for it (the attribute is skipped entirely). -/
theorem temperature_missing_baseline_emits_nothing :
    check_smart_stats "/dev/sda" [] [("/dev/sda", [("Temperature", 40)])] 0 =
      .ok [] := rfl

/-- C7 counterexample: a key/value line with a non-numeric Critical Warning
value makes the parser raise (`int(value, 16)` is unguarded), instead of
storing the attribute with value 0. -/
theorem critical_warning_nonnumeric_raises :
    parse_raw_values [["/dev/nvme0", "NVME", "Model"], ["Critical", "Warning:", "xyz"]] =
      .error "ValueError: invalid literal for int with base 16" := rfl

/-- C8 counterexample: a tabular line with attribute code 199 whose textual
name is the `Unknown_Attribute` marker is skipped entirely — nothing is
recorded under `CRC_Errors`, contrary to "any other textual name at code 199
is recorded under the generic CRC_Errors name". -/
theorem code199_unknown_attribute_not_recorded :
    parse_raw_values [["/dev/sda", "ATA", "X", "199", "Unknown_Attribute",
      "0x0012", "100", "100", "000", "Old_age", "Always", "-", "123"]] =
      .ok [("/dev/sda", [])] := rfl

/-- Setting the same key twice keeps only the second write. -/
theorem setKey_setKey {β : Type} (l : List (String × β)) (k : String) (v1 v2 : β) :
    setKey (setKey l k v1) k v2 = setKey l k v2 := by
  induction l with
  | nil => simp [setKey]
  | cons p rest ih =>
      obtain ⟨k', w⟩ := p
      by_cases h : k' = k <;> simp [setKey, h, ih]

/-- C5 (amended): a registry attribute present in the reading with no baseline
in the parameter set — and which is not the rate-limited, inverted-sense, or
temperature attribute — always yields a normal verdict and a metric carrying
the raw current value, without raising. -/
theorem missing_baseline_informational (disk params : Disk) (rate : ℚ)
    (a : DiskAttribute) (v : Int)
    (h1 : a ≠ .TEMPERATURE) (_h2 : a ≠ .COMMAND_TIMEOUT_COUNTER)
    (h3 : a ≠ .AVAILABLE_SPARE)
    (hv : lookupStr disk a.name = some v)
    (hp : lookupStr params a.name = none) :
    check_attribute disk params rate a =
      .ok [Output.result CheckState.OK (display_attribute_name a ++ ": " ++ a.renderer v),
           Output.metric a.name v] := by
  simp [check_attribute, h1, h3, hv, hp]

/-- Witness for C5: Reallocated_Sectors present with value 7 and no baseline
yields a normal verdict and metric 7. -/
theorem missing_baseline_informational_witness :
    check_attribute [("Reallocated_Sectors", 7)] [] 0 .REALLOCATED_SECTORS =
      .ok [Output.result CheckState.OK "Reallocated sectors: 7",
           Output.metric "Reallocated_Sectors" 7] := by
  rw [missing_baseline_informational [("Reallocated_Sectors", 7)] [] 0 .REALLOCATED_SECTORS 7
    (by decide) (by decide) (by decide) rfl rfl]
  rfl

/-- C9: a tabular line whose numeric code has no registry mapping (and whose
name is not the unknown-attribute marker) stores the raw value under the
literal textual name only when that name is absent; when the name is already
present, the line leaves the section unchanged. -/
theorem unmapped_code_first_occurrence_wins
    (disks : Disks) (p dt dn ID nm fl va wo th ty up wf raw : String)
    (rest : List String) (i : Int)
    (hID : pyInt? ID = some i)
    (hmap : ATA_ID_TO_DISK_ATTRIBUTE i = none)
    (hnm : nm ≠ "Unknown_Attribute") :
    (∀ w, lookupStr ((lookupStr disks p).getD []) nm = some w →
       parse_ata_step disks (ataLine p dt dn ID nm fl va wo th ty up wf raw rest) =
         .ok disks) ∧
    (lookupStr ((lookupStr disks p).getD []) nm = none →
       parse_ata_step disks (ataLine p dt dn ID nm fl va wo th ty up wf raw rest) =
         .ok (setKey disks p (set_int_or_zero ((lookupStr disks p).getD []) nm raw))) := by
  have hne : ¬(i = CRC_ERRORS_ID ∧ nm = "UDMA_CRC_Error_Count") := by
    rintro ⟨hic, -⟩
    rw [hic] at hmap
    simp [ATA_ID_TO_DISK_ATTRIBUTE, CRC_ERRORS_ID] at hmap
  constructor
  · intro w hw
    cases hl : lookupStr disks p with
    | none => rw [hl] at hw; simp [lookupStr] at hw
    | some d =>
        rw [hl] at hw
        simp only [Option.getD_some] at hw
        simp [parse_ata_step, ataLine, hnm, hID, hne, hmap, hl, hw,
          setKey_of_lookup_eq disks p d hl]
  · intro hw
    cases hl : lookupStr disks p with
    | none =>
        simp only [hl, Option.getD_none]
        simp [parse_ata_step, ataLine, hnm, hID, hne, hmap, hl, lookupStr, setKey_setKey]
    | some d =>
        rw [hl] at hw
        simp only [Option.getD_some] at hw ⊢
        simp [parse_ata_step, ataLine, hnm, hID, hne, hmap, hl, hw,
          setKey_of_lookup_eq disks p d hl, setKey_setKey]

/-- Witness for C9: code 42 is unmapped; a second line for the already-present
name `Foo` leaves the parsed state unchanged, and a first line for the absent
name `Bar` stores 0 for its non-numeric raw value. -/
theorem unmapped_code_first_occurrence_wins_witness :
    parse_ata_step [("/dev/sda", [("Foo", 7)])]
      (ataLine "/dev/sda" "ATA" "X" "42" "Foo" "0x0" "100" "100" "050" "Pre-fail"
        "Always" "-" "9" []) = .ok [("/dev/sda", [("Foo", 7)])] ∧
    parse_ata_step [("/dev/sda", [("Foo", 7)])]
      (ataLine "/dev/sda" "ATA" "X" "42" "Bar" "0x0" "100" "100" "050" "Pre-fail"
        "Always" "-" "bogus" []) =
      .ok [("/dev/sda", [("Foo", 7), ("Bar", 0)])] := by
  constructor
  · exact (unmapped_code_first_occurrence_wins [("/dev/sda", [("Foo", 7)])]
      "/dev/sda" "ATA" "X" "42" "Foo" "0x0" "100" "100" "050" "Pre-fail" "Always" "-" "9"
      [] 42 rfl rfl (by decide)).1 7 rfl
  · rw [(unmapped_code_first_occurrence_wins [("/dev/sda", [("Foo", 7)])]
      "/dev/sda" "ATA" "X" "42" "Bar" "0x0" "100" "100" "050" "Pre-fail" "Always" "-" "bogus"
      [] 42 rfl rfl (by decide)).2 rfl]
    rfl

/-- C10: when Available_Spare is present in the reading but the
Available_Spare_Threshold key is absent, the check raises (KeyError) and
produces no output at all for the device, for every parameter set. -/
theorem available_spare_missing_threshold_raises
    (item : String) (params : Disk) (sec : Disks) (disk : Disk) (rate : ℚ) (v : Int)
    (hi : lookupStr sec item = some disk)
    (hv : lookupStr disk "Available_Spare" = some v)
    (ht : lookupStr disk "Available_Spare_Threshold" = none) :
    check_smart_stats item params sec rate = .error "KeyError: Available_Spare_Threshold" := by
  unfold check_smart_stats
  rw [hi]
  have hAS : check_attribute disk params rate .AVAILABLE_SPARE =
      .error "KeyError: Available_Spare_Threshold" := by
    simp [check_attribute, DiskAttribute.name, hv, ht]
  obtain ⟨o1, e1⟩ := check_attribute_isOk disk params rate .REALLOCATED_SECTORS (by decide)
  obtain ⟨o2, e2⟩ := check_attribute_isOk disk params rate .POWER_ON_HOURS (by decide)
  obtain ⟨o3, e3⟩ := check_attribute_isOk disk params rate .SPIN_RETRIES (by decide)
  obtain ⟨o4, e4⟩ := check_attribute_isOk disk params rate .POWER_CYCLES (by decide)
  obtain ⟨o5, e5⟩ := check_attribute_isOk disk params rate .END_TO_END_ERRORS (by decide)
  obtain ⟨o6, e6⟩ := check_attribute_isOk disk params rate .UNCORRECTABLE_ERRORS (by decide)
  obtain ⟨o7, e7⟩ := check_attribute_isOk disk params rate .COMMAND_TIMEOUT_COUNTER (by decide)
  obtain ⟨o8, e8⟩ := check_attribute_isOk disk params rate .TEMPERATURE (by decide)
  obtain ⟨o9, e9⟩ := check_attribute_isOk disk params rate .REALLOCATED_EVENTS (by decide)
  obtain ⟨o10, e10⟩ := check_attribute_isOk disk params rate .PENDING_SECTORS (by decide)
  obtain ⟨o11, e11⟩ := check_attribute_isOk disk params rate .UDMA_CRC_ERRORS (by decide)
  obtain ⟨o12, e12⟩ := check_attribute_isOk disk params rate .CRC_ERRORS (by decide)
  obtain ⟨o13, e13⟩ := check_attribute_isOk disk params rate .CRITICAL_WARNING (by decide)
  obtain ⟨o14, e14⟩ :=
    check_attribute_isOk disk params rate .MEDIA_AND_DATA_INTEGRITY_ERRORS (by decide)
  simp only [DiskAttribute.all, check_all,
    e1, e2, e3, e4, e5, e6, e7, e8, e9, e10, e11, e12, e13, e14, hAS]

/-- Witness for C10: a reading with Available_Spare 50 and no threshold key
makes the whole evaluation error out. -/
theorem available_spare_missing_threshold_raises_witness :
    check_smart_stats "/dev/nvme0" [] [("/dev/nvme0", [("Available_Spare", 50)])] 0 =
      .error "KeyError: Available_Spare_Threshold" :=
  available_spare_missing_threshold_raises "/dev/nvme0" []
    [("/dev/nvme0", [("Available_Spare", 50)])] [("Available_Spare", 50)] 0 50 rfl rfl rfl

/-- C6: a device with a parsed reading yields a monitoring item exactly when
the capture-worthy subset of its reading is nonempty; the emitted parameter
set is exactly that subset (each attribute with its current value, no more,
no fewer); and discovery is deterministic on identical input. -/
theorem discovery_exact_and_idempotent (sec : Disks)
    (hnd : (sec.map Prod.fst).Nodup) (dn : String) (disk : Disk)
    (hmem : (dn, disk) ∈ sec) :
    ((∃ c, (dn, c) ∈ discover_smart_stats sec) ↔ captured disk ≠ []) ∧
    (∀ c, (dn, c) ∈ discover_smart_stats sec → c = captured disk) ∧
    (∀ a v, (a, v) ∈ captured disk ↔
      ∃ f : DiskAttribute, f.capture_on_discovery = true ∧ a = f.name ∧
        lookupStr disk f.name = some v) ∧
    discover_smart_stats sec = discover_smart_stats sec := by
  refine ⟨⟨?_, ?_⟩, ?_, fun a v => mem_captured disk a v, rfl⟩
  · rintro ⟨c, hc⟩
    obtain ⟨d, hd, hne, rfl⟩ := (mem_discover sec dn c).mp hc
    rwa [value_unique_of_nodup sec hnd dn d disk hd hmem] at hne
  · intro hne
    exact ⟨captured disk, (mem_discover sec dn (captured disk)).mpr ⟨disk, hmem, hne, rfl⟩⟩
  · intro c hc
    obtain ⟨d, hd, hne, rfl⟩ := (mem_discover sec dn c).mp hc
    rw [value_unique_of_nodup sec hnd dn d disk hd hmem]

/-- Witness for C6: a reading holding one capture-worthy attribute produces a
monitoring item. -/
theorem discovery_exact_and_idempotent_witness :
    ∃ c, ("/dev/sda", c) ∈
      discover_smart_stats [("/dev/sda", [("Reallocated_Sectors", 3), ("Power_On_Hours", 100)])] :=
  (discovery_exact_and_idempotent
    [("/dev/sda", [("Reallocated_Sectors", 3), ("Power_On_Hours", 100)])] (by decide)
    "/dev/sda" [("Reallocated_Sectors", 3), ("Power_On_Hours", 100)] (by decide)).1.mpr
    (by decide)

/-- C8 (amended): a tabular line with code 199 whose name is not the
unknown-attribute marker routes to `UDMA_CRC_Errors` when the name is
`UDMA_CRC_Error_Count` and to the generic `CRC_Errors` otherwise; the same
integer conversion of the raw value is stored on both paths. -/
theorem code199_dual_routing
    (disks : Disks) (p dt dn ID nm fl va wo th ty up wf raw : String)
    (rest : List String)
    (hID : pyInt? ID = some CRC_ERRORS_ID) (hnm : nm ≠ "Unknown_Attribute") :
    parse_ata_step disks (ataLine p dt dn ID nm fl va wo th ty up wf raw rest) =
      .ok (setKey disks p (set_int_or_zero ((lookupStr disks p).getD [])
        (if nm = "UDMA_CRC_Error_Count" then "UDMA_CRC_Errors" else "CRC_Errors") raw)) ∧
    lookupStr (set_int_or_zero ((lookupStr disks p).getD [])
        (if nm = "UDMA_CRC_Error_Count" then "UDMA_CRC_Errors" else "CRC_Errors") raw)
      (if nm = "UDMA_CRC_Error_Count" then "UDMA_CRC_Errors" else "CRC_Errors") =
      some ((pyInt? raw).getD 0) := by
  constructor
  · by_cases hu : nm = "UDMA_CRC_Error_Count" <;>
      simp [parse_ata_step, ataLine, hnm, hID, hu, CRC_ERRORS_ID,
        ATA_ID_TO_DISK_ATTRIBUTE, DiskAttribute.name, setKey_setKey]
  · cases hpr : pyInt? raw <;>
      simp [set_int_or_zero, hpr, lookupStr_setKey_self]

/-- Witness for C8: the same raw value 123 lands under `UDMA_CRC_Errors` for
the UDMA name and under `CRC_Errors` for any other name. -/
theorem code199_dual_routing_witness :
    parse_ata_step [] (ataLine "/dev/sda" "ATA" "X" "199" "UDMA_CRC_Error_Count"
      "0x0" "100" "100" "000" "Old_age" "Always" "-" "123" []) =
      .ok [("/dev/sda", [("UDMA_CRC_Errors", 123)])] ∧
    parse_ata_step [] (ataLine "/dev/sda" "ATA" "X" "199" "CRC_Error_Count"
      "0x0" "100" "100" "000" "Old_age" "Always" "-" "123" []) =
      .ok [("/dev/sda", [("CRC_Errors", 123)])] := by
  constructor
  · rw [(code199_dual_routing [] "/dev/sda" "ATA" "X" "199" "UDMA_CRC_Error_Count"
      "0x0" "100" "100" "000" "Old_age" "Always" "-" "123" [] rfl (by decide)).1]
    rfl
  · rw [(code199_dual_routing [] "/dev/sda" "ATA" "X" "199" "CRC_Error_Count"
      "0x0" "100" "100" "000" "Old_age" "Always" "-" "123" [] rfl (by decide)).1]
    rfl

/-- C7 (amended): on a tabular line with a numeric code and a name other than
the unknown-attribute marker, a non-numeric raw value never makes the ATA
sub-parser raise; the target attribute is stored as 0 (the canonical name for
a mapped code, `UDMA_CRC_Errors` for the dual code with the UDMA name, the
literal name for an unmapped code when absent; an already-present unmapped
name leaves the record unchanged).  On a key/value line dispatched to the
generic path, a non-numeric value is likewise stored as 0.  (The Critical
Warning and Data Units fields are excluded: their unguarded conversions
raise, see the counterexample.) -/
theorem malformed_raw_value_local_zero
    (disks : Disks) (p dt dn ID nm fl va wo th ty up wf raw : String)
    (rest : List String) (i : Int)
    (hID : pyInt? ID = some i) (hnm : nm ≠ "Unknown_Attribute")
    (hraw : pyInt? raw = none) :
    (∃ disks', parse_ata_step disks (ataLine p dt dn ID nm fl va wo th ty up wf raw rest) =
       .ok disks') ∧
    (∀ a : DiskAttribute, ATA_ID_TO_DISK_ATTRIBUTE i = some a →
       ¬(i = CRC_ERRORS_ID ∧ nm = "UDMA_CRC_Error_Count") →
       ∃ disks', parse_ata_step disks (ataLine p dt dn ID nm fl va wo th ty up wf raw rest) =
           .ok disks' ∧
         lookupStr ((lookupStr disks' p).getD []) a.name = some 0) ∧
    (i = CRC_ERRORS_ID → nm = "UDMA_CRC_Error_Count" →
       ∃ disks', parse_ata_step disks (ataLine p dt dn ID nm fl va wo th ty up wf raw rest) =
           .ok disks' ∧
         lookupStr ((lookupStr disks' p).getD []) "UDMA_CRC_Errors" = some 0) ∧
    (ATA_ID_TO_DISK_ATTRIBUTE i = none →
       lookupStr ((lookupStr disks p).getD []) nm = none →
       ∃ disks', parse_ata_step disks (ataLine p dt dn ID nm fl va wo th ty up wf raw rest) =
           .ok disks' ∧
         lookupStr ((lookupStr disks' p).getD []) nm = some 0) ∧
    (∀ w, ATA_ID_TO_DISK_ATTRIBUTE i = none →
       lookupStr ((lookupStr disks p).getD []) nm = some w →
       parse_ata_step disks (ataLine p dt dn ID nm fl va wo th ty up wf raw rest) =
         .ok (setKey disks p ((lookupStr disks p).getD []))) ∧
    (∀ (st : Disks) (cur : String) (l0 : String) (ls : List String) (f v : String),
       strContains l0 "/dev" = false →
       splitOnChar ':' (String.intercalate " " (l0 :: ls)) = [f, v] →
       pyStrip f ≠ "Temperature" → pyStrip f ≠ "Critical Warning" →
       pyStrip f ≠ "Data Units Read" → pyStrip f ≠ "Data Units Written" →
       pyInt? (removeChar ',' (removeChar '.' (removeChar '%' (pyStrip v)))) = none →
       parse_nvme_step (st, some cur) (l0 :: ls) =
         .ok (setKey st cur (setKey ((lookupStr st cur).getD [])
           (mapChar ' ' '_' (pyStrip f)) 0), some cur) ∧
       lookupStr (setKey ((lookupStr st cur).getD []) (mapChar ' ' '_' (pyStrip f)) 0)
         (mapChar ' ' '_' (pyStrip f)) = some 0) := by
  have hnorm : ∀ (d : Disk) (a : DiskAttribute),
      lookupStr
        (if a = DiskAttribute.REALLOCATED_EVENTS then
          match pyInt? va with
          | none => setKey d a.name 0
          | some nv =>
            match pyInt? th with
            | none => setKey (setKey d a.name 0) "_normalized_value_Reallocated_Events" nv
            | some nt =>
                setKey (setKey (setKey d a.name 0) "_normalized_value_Reallocated_Events" nv)
                  "_normalized_threshold_Reallocated_Events" nt
        else setKey d a.name 0) a.name = some 0 := by
    intro d a
    by_cases hre : a = DiskAttribute.REALLOCATED_EVENTS
    · subst hre
      cases pyInt? va with
      | none => simp [lookupStr_setKey_self]
      | some nv =>
          cases pyInt? th with
          | none =>
              rw [if_pos rfl]
              rw [lookupStr_setKey_ne _ _ _ _ (by decide)]
              exact lookupStr_setKey_self _ _ _
          | some nt =>
              rw [if_pos rfl]
              rw [lookupStr_setKey_ne _ _ _ _ (by decide),
                lookupStr_setKey_ne _ _ _ _ (by decide)]
              exact lookupStr_setKey_self _ _ _
    · rw [if_neg hre]
      exact lookupStr_setKey_self _ _ _
  refine ⟨?_, ?_, ?_, ?_, ?_, ?_⟩
  · by_cases hu : i = CRC_ERRORS_ID ∧ nm = "UDMA_CRC_Error_Count"
    · simp [parse_ata_step, ataLine, hnm, hID, hu]
    · cases hmap : ATA_ID_TO_DISK_ATTRIBUTE i with
      | none =>
          by_cases hpres : (lookupStr ((lookupStr disks p).getD []) nm).isSome <;>
            simp [parse_ata_step, ataLine, hnm, hID, hu, hmap, hpres]
      | some a => simp [parse_ata_step, ataLine, hnm, hID, hu, hmap]
  · intro a hmap hu
    simp only [parse_ata_step, ataLine, hnm, hID, hu, hmap, ne_eq, ite_false,
      if_neg, Option.isSome]
    simp only [set_int_or_zero, hraw]
    refine ⟨_, rfl, ?_⟩
    rw [lookupStr_setKey_self]
    simp only [Option.getD_some]
    exact hnorm _ a
  · intro hic hn
    simp only [parse_ata_step, ataLine, hnm, hID, hic, hn]
    simp only [set_int_or_zero, hraw]
    refine ⟨_, rfl, ?_⟩
    rw [lookupStr_setKey_self]
    simp only [Option.getD_some, DiskAttribute.name]
    exact lookupStr_setKey_self _ _ _
  · intro hmap habs
    have hu : ¬(i = CRC_ERRORS_ID ∧ nm = "UDMA_CRC_Error_Count") := by
      rintro ⟨hic, -⟩
      rw [hic] at hmap
      simp [ATA_ID_TO_DISK_ATTRIBUTE, CRC_ERRORS_ID] at hmap
    simp only [parse_ata_step, ataLine, hnm, hID, hu, hmap, habs]
    simp only [set_int_or_zero, hraw]
    refine ⟨_, rfl, ?_⟩
    rw [lookupStr_setKey_self]
    simp only [Option.getD_some]
    exact lookupStr_setKey_self _ _ _
  · intro w hmap hw
    have hu : ¬(i = CRC_ERRORS_ID ∧ nm = "UDMA_CRC_Error_Count") := by
      rintro ⟨hic, -⟩
      rw [hic] at hmap
      simp [ATA_ID_TO_DISK_ATTRIBUTE, CRC_ERRORS_ID] at hmap
    simp [parse_ata_step, ataLine, hnm, hID, hu, hmap, hw]
  · intro st cur l0 ls f v hdev hsplit hf1 hf2 hf3 hf4 hval
    refine ⟨?_, by simp [lookupStr_setKey_self]⟩
    simp [parse_nvme_step, hdev, hsplit, hf1, hf2, hf3, hf4,
      set_int_or_zero, hval]

/-- Witness for C7: mapped code 5 with non-numeric raw value `bogus` parses
without error and stores Reallocated_Sectors as 0. -/
theorem malformed_raw_value_local_zero_witness :
    ∃ disks', parse_ata_step [] (ataLine "/dev/sda" "ATA" "X" "5" "Reallocated_Sector_Ct"
        "0x0" "100" "100" "050" "Pre-fail" "Always" "-" "bogus" []) = .ok disks' ∧
      lookupStr ((lookupStr disks' "/dev/sda").getD []) "Reallocated_Sectors" = some 0 :=
  (malformed_raw_value_local_zero [] "/dev/sda" "ATA" "X" "5" "Reallocated_Sector_Ct"
    "0x0" "100" "100" "050" "Pre-fail" "Always" "-" "bogus" [] 5 rfl (by decide)
    rfl).2.1 .REALLOCATED_SECTORS rfl (by decide)

end Smart
